import Mathlib

/-!
Formal model of the nail-master-service application.  The Django models
(`models.py`), forms (`forms.py`) and views (`views.py`) are embedded as
pure Lean functions over explicit database states (lists of rows), and
the behavioural properties of the application are proved about this
embedding.  Decimal prices are modelled as integers (a fixed scaling),
strings as lists of characters, and datetimes as records of calendar
fields.
-/

namespace NailService

/-- Strings are modelled as lists of characters. -/
abbrev Str := List Char

/-- `User.Role` from `models.py`: the text choices ADMIN, CUSTOMER, MASTER. -/
inductive Role
  | ADMIN
  | CUSTOMER
  | MASTER
deriving DecidableEq, Repr

/-- A `User` model instance as `User.save` sees it: its primary key
(`None` before the first save) and its `role` field. -/
structure User where
  pk : Option Nat
  role : Role
deriving DecidableEq, Repr

/-- Python truthiness of `self.pk` in `if not self.pk:` — `None` and `0`
are both falsy. -/
def pkFalsy : Option Nat → Bool
  | none => true
  | some n => n == 0

/-- The concrete model class a row is saved through; `Customer` and
`Master` override `base_role` (`models.py` lines 37 and 52). -/
inductive UserKind
  | user
  | customer
  | master
deriving DecidableEq, Repr

/-- `base_role`: `Role.ADMIN` on the base `User`, overridden to CUSTOMER
on `Customer` and MASTER on `Master`. -/
def base_role : UserKind → Role
  | .user => .ADMIN
  | .customer => .CUSTOMER
  | .master => .MASTER

/-- `User.save` (`models.py` lines 30-33): when the instance has no
primary key yet, force `role` to the subtype's `base_role`; then the
superclass save inserts the row (assigning a fresh primary key) or
updates it in place. -/
def User.save (k : UserKind) (u : User) (freshPk : Nat) : User :=
  let u1 := if pkFalsy u.pk then { u with role := base_role k } else u
  match u1.pk with
  | none => { u1 with pk := some freshPk }
  | some _ => u1

/-- Lower-casing a string, as the case-insensitive `icontains` lookup does. -/
def strToLower (s : Str) : Str := s.map Char.toLower

/-- Boolean prefix test on character lists. -/
def isPrefixB : Str → Str → Bool
  | [], _ => true
  | _ :: _, [] => false
  | a :: as, b :: bs => a == b && isPrefixB as bs

/-- Boolean substring test: does the second argument contain `needle`
as a contiguous substring? -/
def isSubstrB (needle : Str) : Str → Bool
  | [] => needle.isEmpty
  | c :: rest => isPrefixB needle (c :: rest) || isSubstrB needle rest

/-- The ORM lookup `username__icontains=q`: case-insensitive substring
containment of `q` in `hay`. -/
def icontains (hay q : Str) : Bool := isSubstrB (strToLower q) (strToLower hay)

/-- A persisted user row (shared shape of the `Master` and `Customer`
tables joined with their parent `User` row; with multi-table inheritance
the child row's primary key equals the parent user's primary key). -/
structure UserRow where
  pk : Nat
  username : Str
  role : Role
deriving DecidableEq, Repr

/-- `MasterSearchForm` / `CustomerSearchForm` (`forms.py`): a single
`CharField(max_length=255, required=False)`.  The bound form is valid
exactly when the submitted value fits the declared max length (the field
is not required, so an empty value is valid). -/
def searchFormIsValid (q : Str) : Bool := decide (q.length ≤ 255)

/-- `MasterListView.get_queryset` (`views.py` lines 102-109): start from
`Master.objects.filter(role="MASTER")`; when the search form is valid,
filter by `username__icontains`; otherwise return the role-filtered
queryset (ordered by id, which does not change its members). -/
def MasterListView.get_queryset (masterDb : List UserRow) (q : Str) : List UserRow :=
  let queryset := masterDb.filter (fun u => decide (u.role = Role.MASTER))
  if searchFormIsValid q then
    queryset.filter (fun u => icontains u.username q)
  else
    queryset

/-- `CustomerListView.get_queryset` (`views.py` lines 237-251): same
shape as the master list, over `Customer.objects.filter(role="CUSTOMER")`. -/
def CustomerListView.get_queryset (customerDb : List UserRow) (q : Str) : List UserRow :=
  let queryset := customerDb.filter (fun u => decide (u.role = Role.CUSTOMER))
  if searchFormIsValid q then
    queryset.filter (fun u => icontains u.username q)
  else
    queryset

/-- A `PriceList` row (`models.py` lines 82-89), carrying the foreign
keys as primary keys and the non-nullable decimal price as a scaled
integer.  (`time_service` is nullable and never touched by the views
modelled here, so it is omitted.) -/
structure PriceListRow where
  master : Nat
  service : Nat
  price : Int
deriving DecidableEq, Repr

/-- The kinds of failure observable from the master-update flow. -/
inductive FailureKind
  | formMissingValue
  | dbIntegrityError
  | dbDoesNotExist
deriving DecidableEq, Repr

/-- The `cleaned_data` dictionary `MasterUpdateView.form_valid` reads:
`cleaned_data.get('services', [])` yields the selected service ids (the
key may be absent), and `cleaned_data.get('price_' + str(service.id))`
yields the per-service price or `None` when that key is absent. -/
structure CleanedData where
  services : Option (List Nat)
  price : Nat → Option Int

/-- `PriceList.objects.filter(master=self.object).delete()` (`views.py`
line 127): remove every price-list row belonging to the given master. -/
def PriceList.deleteForMaster (table : List PriceListRow) (m : Nat) : List PriceListRow :=
  table.filter (fun r => decide (r.master ≠ m))

/-- The creation loop of `form_valid` (`views.py` lines 128-130):
`PriceList.objects.create(master=self.object, service=service, price=price)`
for each selected service.  Creating a row with a `None` price violates
the NOT NULL constraint on `PriceList.price` and raises an integrity
error, aborting the loop with the rows created so far committed. -/
def createPriceRows (m : Nat) (cd : CleanedData) :
    List Nat → List PriceListRow → List PriceListRow × Option FailureKind
  | [], table => (table, none)
  | s :: rest, table =>
    match cd.price s with
    | none => (table, some .dbIntegrityError)
    | some p => createPriceRows m cd rest (table ++ [⟨m, s, p⟩])

/-- `MasterUpdateView.form_valid` (`views.py` lines 119-131), restricted
to its effect on the `PriceList` table: delete every row of the updated
master, then create one row per selected service with the submitted
per-service price.  Returns the resulting table and the failure, if any,
raised during the creation loop. -/
def MasterUpdateView.form_valid (m : Nat) (cd : CleanedData) (table : List PriceListRow) :
    List PriceListRow × Option FailureKind :=
  createPriceRows m cd (cd.services.getD []) (PriceList.deleteForMaster table m)

/-- A naive calendar datetime, as stored in `Events.start_date` /
`Events.end_date`. -/
structure DateTime where
  year : Nat
  month : Nat
  day : Nat
  hour : Nat
  minute : Nat
  second : Nat
deriving DecidableEq, Repr

/-- Field ranges of a real Python `datetime` value (year 1..9999, month
1..12, day 1..31, hour 0..23, minute 0..59, second 0..59). -/
def validDT (d : DateTime) : Prop :=
  1 ≤ d.year ∧ d.year ≤ 9999 ∧ 1 ≤ d.month ∧ d.month ≤ 12 ∧ 1 ≤ d.day ∧ d.day ≤ 31 ∧
    d.hour ≤ 23 ∧ d.minute ≤ 59 ∧ d.second ≤ 59

instance (d : DateTime) : Decidable (validDT d) := by
  unfold validDT
  infer_instance

/-- Two zero-padded decimal digits, as `%m`, `%d`, `%H`, `%M`, `%S`
render values below 100. -/
def pad2 (n : Nat) : Str :=
  [Nat.digitChar (n / 10 % 10), Nat.digitChar (n % 10)]

/-- Four zero-padded decimal digits, as `%Y` renders years up to 9999. -/
def pad4 (n : Nat) : Str :=
  [Nat.digitChar (n / 1000 % 10), Nat.digitChar (n / 100 % 10),
   Nat.digitChar (n / 10 % 10), Nat.digitChar (n % 10)]

/-- `strftime("%Y-%m-%d %H:%M:%S")` on a datetime within Python's field
ranges. -/
def strftimeYmdHms (d : DateTime) : Str :=
  pad4 d.year ++ ['-'] ++ pad2 d.month ++ ['-'] ++ pad2 d.day ++ [' '] ++
    pad2 d.hour ++ [':'] ++ pad2 d.minute ++ [':'] ++ pad2 d.second

/-- Shape checker for the pattern `YYYY-MM-DD HH:MM:SS`: nineteen
characters, digits in the date/time positions and the literal
separators in between. -/
def ymdHmsShape (s : Str) : Bool :=
  match s with
  | [y1, y2, y3, y4, c1, mo1, mo2, c2, d1, d2, c3, h1, h2, c4, mi1, mi2, c5, s1, s2] =>
    y1.isDigit && y2.isDigit && y3.isDigit && y4.isDigit && c1 == '-' &&
      mo1.isDigit && mo2.isDigit && c2 == '-' && d1.isDigit && d2.isDigit && c3 == ' ' &&
      h1.isDigit && h2.isDigit && c4 == ':' && mi1.isDigit && mi2.isDigit && c5 == ':' &&
      s1.isDigit && s2.isDigit
  | _ => false

/-- An `Events` row (`models.py` lines 71-76). -/
structure EventRow where
  id : Nat
  title : Str
  start_date : DateTime
  end_date : DateTime
  master : Nat
deriving DecidableEq, Repr

/-- A JSON value, the wire shape of the calendar endpoints. -/
inductive Json
  | jstr (s : Str)
  | jnum (n : Nat)
  | jobj (fields : List (Str × Json))
  | jarr (elems : List Json)

/-- The JSON field names used by `all_events`. -/
def titleKey : Str := ['t', 'i', 't', 'l', 'e']

def idKey : Str := ['i', 'd']

def startKey : Str := ['s', 't', 'a', 'r', 't']

def endKey : Str := ['e', 'n', 'd']

/-- The per-event JSON object built by `all_events` (`views.py` lines
505-511). -/
def eventJson (e : EventRow) : Json :=
  Json.jobj [(titleKey, .jstr e.title), (idKey, .jnum e.id),
    (startKey, .jstr (strftimeYmdHms e.start_date)),
    (endKey, .jstr (strftimeYmdHms e.end_date))]

/-- `all_events` (`views.py` lines 502-513): serialize every `Events`
row into the `{title, id, start, end}` object and return the JSON array. -/
def all_events (eventDb : List EventRow) : Json :=
  Json.jarr (eventDb.map eventJson)

/-- The authenticated requesting user as the event and ownership views
see it: primary key, role, and `request.user.master` resolved to the
primary key of the user's `Master` row (with multi-table inheritance
that row shares the user's primary key; `none` when the user has no
`Master` profile, in which case the attribute access raises
`ObjectDoesNotExist`). -/
structure ReqUser where
  pk : Nat
  role : Role
  masterPk : Option Nat
deriving DecidableEq, Repr

/-- Observable HTTP responses of the modelled views. -/
inductive Response
  | success
  | redirectToLogin
  | forbidden
  | notFound
  | serverError
  | jsonOk
deriving DecidableEq, Repr

/-- `update` (`views.py` lines 534-549): guarded by `@master_required`
(raising `PermissionDenied` for non-masters); looks the event up with
`Events.objects.get(id=id)`, whose uncaught `DoesNotExist` surfaces as a
server error; mutates the event only when the requester is a master and
owns it; always answers `JsonResponse({})` otherwise. -/
def update (eventDb : List EventRow) (u : ReqUser) (i : Nat)
    (startP endP : DateTime) (titleP : Str) : List EventRow × Response :=
  if u.role ≠ Role.MASTER then (eventDb, .forbidden)
  else
    match eventDb.find? (fun e => decide (e.id = i)) with
    | none => (eventDb, .serverError)
    | some e =>
      if u.role = Role.MASTER then
        match u.masterPk with
        | none => (eventDb, .serverError)
        | some m =>
          if m = e.master then
            (eventDb.map (fun r =>
              if r.id = e.id then
                { r with start_date := startP, end_date := endP, title := titleP }
              else r), .jsonOk)
          else (eventDb, .jsonOk)
      else (eventDb, .jsonOk)

/-- `remove` (`views.py` lines 552-561): same guard and lookup as
`update`; deletes the event only when the requester is a master and owns
it. -/
def remove (eventDb : List EventRow) (u : ReqUser) (i : Nat) : List EventRow × Response :=
  if u.role ≠ Role.MASTER then (eventDb, .forbidden)
  else
    match eventDb.find? (fun e => decide (e.id = i)) with
    | none => (eventDb, .serverError)
    | some e =>
      if u.role = Role.MASTER then
        match u.masterPk with
        | none => (eventDb, .serverError)
        | some m =>
          if m = e.master then
            (eventDb.filter (fun r => decide (r.id ≠ e.id)), .jsonOk)
          else (eventDb, .jsonOk)
      else (eventDb, .jsonOk)

/-- `add_event` (`views.py` lines 515-531): guarded by
`@master_required`; when the requester's role is MASTER, creates an
event owned by the requester's own master — no lookup of, or ownership
check against, any existing event is performed. -/
def add_event (eventDb : List EventRow) (u : ReqUser) (freshId : Nat)
    (titleP : Str) (startP endP : DateTime) : List EventRow × Response :=
  if u.role ≠ Role.MASTER then (eventDb, .forbidden)
  else
    if u.role = Role.MASTER then
      match u.masterPk with
      | none => (eventDb, .serverError)
      | some m => (eventDb ++ [⟨freshId, titleP, startP, endP, m⟩], .jsonOk)
    else (eventDb, .jsonOk)

/-- The list and detail endpoints of the application (`urls.py`),
together with the `/all_events/` JSON list. -/
inductive Endpoint
  | masterList
  | masterDetail
  | customerList
  | customerDetail
  | servicesList
  | allEvents
deriving DecidableEq, Repr

/-- Whether each endpoint's view demands an authenticated user:
`MasterListView`, `MasterDetailView`, `CustomerListView`,
`CustomerDetailView` and `ServicesListView` all mix in
`LoginRequiredMixin` (`views.py`), while `all_events` (`views.py` line
502) carries no `login_required` decorator at all. -/
def loginRequired : Endpoint → Bool
  | .masterList => true
  | .masterDetail => true
  | .customerList => true
  | .customerDetail => true
  | .servicesList => true
  | .allEvents => false

/-- Request dispatch for the list/detail endpoints: a view protected by
`LoginRequiredMixin` (or `@login_required`) redirects an unauthenticated
request to the login page; otherwise the handler runs and returns the
listed content. -/
def dispatchRequest (e : Endpoint) (authenticated : Bool) : Response :=
  if loginRequired e && !authenticated then .redirectToLogin else .success

/-- `MasterDetailView` lookup (`views.py` lines 150-153): the queryset
is `Master.objects.filter(role=MASTER)` and a missing object raises the
framework's `Http404`. -/
def MasterDetailView.respond (masterDb : List UserRow) (pk : Nat) : Response :=
  match (masterDb.filter (fun u => decide (u.role = Role.MASTER))).find?
      (fun u => decide (u.pk = pk)) with
  | none => .notFound
  | some _ => .success

/-- `UserPassesTestMixin` dispatch: a failing `test_func` routes to
`handle_no_permission`, which returns `HttpResponseForbidden`; a passing
test lets the view proceed. -/
def userPassesTest (t : Bool) : Response :=
  if t then .success else .forbidden

/-- `MasterUpdateView.test_func` (`views.py` lines 133-138):
`request.user == self.get_object().user`; the parent-link `User` row of
a `Master` shares its primary key, and Django model equality compares
primary keys. -/
def MasterUpdateView.test_func (u : ReqUser) (target : UserRow) : Bool :=
  decide (u.pk = target.pk)

/-- `MasterDeleteView.test_func` (`views.py` lines 202-207): identical
ownership test. -/
def MasterDeleteView.test_func (u : ReqUser) (target : UserRow) : Bool :=
  decide (u.pk = target.pk)

/-- `CustomerUpdateView.test_func` (`views.py` lines 261-266). -/
def CustomerUpdateView.test_func (u : ReqUser) (target : UserRow) : Bool :=
  decide (u.pk = target.pk)

/-- `CustomerDeleteView.test_func` (`views.py` lines 293-298). -/
def CustomerDeleteView.test_func (u : ReqUser) (target : UserRow) : Bool :=
  decide (u.pk = target.pk)

/-- `PriceListUpdateView.test_func` (`views.py` lines 456-465):
`price_list.master == self.request.user.master`, with the
`ObjectDoesNotExist` raised for a user without a `Master` profile caught
and turned into `False`. -/
def PriceListUpdateView.test_func (u : ReqUser) (pl : PriceListRow) : Bool :=
  match u.masterPk with
  | none => false
  | some m => decide (pl.master = m)

/-- `PriceListDeleteView.test_func` (`views.py` lines 481-490):
identical ownership test. -/
def PriceListDeleteView.test_func (u : ReqUser) (pl : PriceListRow) : Bool :=
  match u.masterPk with
  | none => false
  | some m => decide (pl.master = m)

/-- Response of `MasterUpdateView` for an authenticated user and an
existing target, as decided by `UserPassesTestMixin`. -/
def MasterUpdateView.respond (u : ReqUser) (target : UserRow) : Response :=
  userPassesTest (MasterUpdateView.test_func u target)

/-- Response of `MasterDeleteView` for an authenticated user and an
existing target. -/
def MasterDeleteView.respond (u : ReqUser) (target : UserRow) : Response :=
  userPassesTest (MasterDeleteView.test_func u target)

/-- Response of `CustomerUpdateView` for an authenticated user and an
existing target. -/
def CustomerUpdateView.respond (u : ReqUser) (target : UserRow) : Response :=
  userPassesTest (CustomerUpdateView.test_func u target)

/-- Response of `CustomerDeleteView` for an authenticated user and an
existing target. -/
def CustomerDeleteView.respond (u : ReqUser) (target : UserRow) : Response :=
  userPassesTest (CustomerDeleteView.test_func u target)

/-- Response of `PriceListUpdateView` for an authenticated user and an
existing target. -/
def PriceListUpdateView.respond (u : ReqUser) (pl : PriceListRow) : Response :=
  userPassesTest (PriceListUpdateView.test_func u pl)

/-- Response of `PriceListDeleteView` for an authenticated user and an
existing target. -/
def PriceListDeleteView.respond (u : ReqUser) (pl : PriceListRow) : Response :=
  userPassesTest (PriceListDeleteView.test_func u pl)

/-- `ServicesUpdateView.test_func` (`views.py` lines 375-383): passes
exactly when the requesting user's role is ADMIN (the further
`user == self.request.user` comparison is a self-comparison, always
true). -/
def ServicesUpdateView.test_func (u : ReqUser) : Bool :=
  decide (u.role = Role.ADMIN)

/-- `ServicesDeleteView.test_func` (`views.py` lines 399-407): identical
role check. -/
def ServicesDeleteView.test_func (u : ReqUser) : Bool :=
  decide (u.role = Role.ADMIN)

/-- `CustomerDetailView` lookup (`views.py` lines 278-280): the queryset
is `Customer.objects.all()` and a missing object raises the framework's
`Http404`. -/
def CustomerDetailView.respond (customerDb : List UserRow) (pk : Nat) : Response :=
  match customerDb.find? (fun u => decide (u.pk = pk)) with
  | none => .notFound
  | some _ => .success

/-- Shape checker for one element of the `/all_events/` array: an object
with exactly the keys `title`, `id`, `start`, `end`, a string title, a
numeric id, and `start`/`end` strings in `YYYY-MM-DD HH:MM:SS` form. -/
def eventJsonShape (j : Json) : Bool :=
  match j with
  | Json.jobj [(k1, Json.jstr _), (k2, Json.jnum _), (k3, Json.jstr s3), (k4, Json.jstr s4)] =>
    k1 == titleKey && k2 == idKey && k3 == startKey && k4 == endKey &&
      ymdHmsShape s3 && ymdHmsShape s4
  | _ => false

/-! Concrete sample data used to instantiate the theorems below. -/

/-- A sample master row. -/
def bobRow : UserRow := ⟨1, ['b', 'o', 'b'], Role.MASTER⟩

/-- A query string of 256 characters, one more than the search form's
`max_length=255`. -/
def longQ : Str := List.replicate 256 'a'

/-- A cleaned-data dictionary selecting service 1 with no price key. -/
def cdMissing : CleanedData := ⟨some [1], fun _ => none⟩

/-- A cleaned-data dictionary selecting services 2 and 3 with prices. -/
def cdTwo : CleanedData := ⟨some [2, 3], fun s => some (Int.ofNat (10 * s))⟩

/-- An old price-list row of master 1. -/
def rowOld : PriceListRow := ⟨1, 9, 7⟩

/-- A price-list row of master 2, untouched by updates to master 1. -/
def rowOther : PriceListRow := ⟨2, 4, 11⟩

/-- A sample datetime. -/
def dt0 : DateTime := ⟨2023, 1, 1, 10, 0, 0⟩

/-- A second sample datetime. -/
def dt1 : DateTime := ⟨2023, 1, 1, 11, 30, 5⟩

/-- An authenticated master user with primary key 1. -/
def masterUser1 : ReqUser := ⟨1, Role.MASTER, some 1⟩

/-- An event owned by master 2 (not by `masterUser1`). -/
def evOther : EventRow := ⟨1, ['x'], dt0, dt1, 2⟩

/-- Two sample events rows. -/
def ev1 : EventRow := ⟨1, ['a'], dt0, dt1, 1⟩

/-- A second sample events row. -/
def ev2 : EventRow := ⟨2, ['b'], dt1, dt1, 1⟩

/-! ## Helper lemmas -/

/-- `userPassesTest` yields `forbidden` exactly when the test fails. -/
theorem userPassesTest_forbidden_iff (t : Bool) :
    userPassesTest t = Response.forbidden ↔ t = false := by
  cases t <;> simp [userPassesTest]

/-- `userPassesTest` yields `success` exactly when the test passes. -/
theorem userPassesTest_success_iff (t : Bool) :
    userPassesTest t = Response.success ↔ t = true := by
  cases t <;> simp [userPassesTest]

/-- Claim C2: for every newly created Master or Customer row, regardless
of any role value supplied by the caller at creation time, the stored
role equals the fixed role of that subtype, because `User.save` forces
`role` to the subtype's `base_role` when the row has no primary key yet. -/
theorem C2_role_forced_on_create (u : User) (freshPk : Nat) (h : u.pk = none) :
    (User.save .master u freshPk).role = Role.MASTER ∧
      (User.save .customer u freshPk).role = Role.CUSTOMER := by
  constructor <;> simp [User.save, pkFalsy, h, base_role]

/-- Witness for C2 at a user created with a caller-supplied ADMIN role. -/
theorem C2_role_forced_on_create_witness :
    (User.save .master ⟨none, Role.ADMIN⟩ 7).role = Role.MASTER ∧
      (User.save .customer ⟨none, Role.ADMIN⟩ 7).role = Role.CUSTOMER :=
  C2_role_forced_on_create ⟨none, Role.ADMIN⟩ 7 rfl

/-- Counterexample to claim C4 as stated: an unauthenticated request to
`/all_events/` returns the listed JSON content (a success), not a
redirect to login, because `all_events` carries no login requirement. -/
theorem C4_counterexample :
    dispatchRequest .allEvents false = Response.success ∧
      dispatchRequest .allEvents false ≠ Response.redirectToLogin := by
  decide

/-- Claim C4 (amended): every list/detail endpoint other than
`/all_events/` redirects an unauthenticated request to login, while the
unprotected `/all_events/` endpoint returns the listed content even to
an unauthenticated request. -/
theorem C4_login_redirect (e : Endpoint) (h : e ≠ Endpoint.allEvents) :
    dispatchRequest e false = Response.redirectToLogin ∧
      dispatchRequest .allEvents false = Response.success := by
  cases e <;> simp_all [dispatchRequest, loginRequired]

/-- Witness for C4 (amended) at the master-list endpoint. -/
theorem C4_login_redirect_witness :
    dispatchRequest .masterList false = Response.redirectToLogin ∧
      dispatchRequest .allEvents false = Response.success :=
  C4_login_redirect .masterList (by decide)

/-- Claim C7: for every authenticated user and every Master, Customer or
PriceList resource, update and delete answer forbidden exactly when the
requester is not the owner (the matching user for Master/Customer, the
owning master for PriceList) and succeed exactly when the requester is
the owner. -/
theorem C7_owner_gate (u : ReqUser) (mrow crow : UserRow) (pl : PriceListRow) :
    (MasterUpdateView.respond u mrow = Response.forbidden ↔ u.pk ≠ mrow.pk) ∧
      (MasterUpdateView.respond u mrow = Response.success ↔ u.pk = mrow.pk) ∧
      (MasterDeleteView.respond u mrow = Response.forbidden ↔ u.pk ≠ mrow.pk) ∧
      (MasterDeleteView.respond u mrow = Response.success ↔ u.pk = mrow.pk) ∧
      (CustomerUpdateView.respond u crow = Response.forbidden ↔ u.pk ≠ crow.pk) ∧
      (CustomerUpdateView.respond u crow = Response.success ↔ u.pk = crow.pk) ∧
      (CustomerDeleteView.respond u crow = Response.forbidden ↔ u.pk ≠ crow.pk) ∧
      (CustomerDeleteView.respond u crow = Response.success ↔ u.pk = crow.pk) ∧
      (PriceListUpdateView.respond u pl = Response.forbidden ↔ u.masterPk ≠ some pl.master) ∧
      (PriceListUpdateView.respond u pl = Response.success ↔ u.masterPk = some pl.master) ∧
      (PriceListDeleteView.respond u pl = Response.forbidden ↔ u.masterPk ≠ some pl.master) ∧
      (PriceListDeleteView.respond u pl = Response.success ↔ u.masterPk = some pl.master) := by
  refine ⟨?_, ?_, ?_, ?_, ?_, ?_, ?_, ?_, ?_, ?_, ?_, ?_⟩
  · simp [MasterUpdateView.respond, MasterUpdateView.test_func, userPassesTest_forbidden_iff]
  · simp [MasterUpdateView.respond, MasterUpdateView.test_func, userPassesTest_success_iff]
  · simp [MasterDeleteView.respond, MasterDeleteView.test_func, userPassesTest_forbidden_iff]
  · simp [MasterDeleteView.respond, MasterDeleteView.test_func, userPassesTest_success_iff]
  · simp [CustomerUpdateView.respond, CustomerUpdateView.test_func, userPassesTest_forbidden_iff]
  · simp [CustomerUpdateView.respond, CustomerUpdateView.test_func, userPassesTest_success_iff]
  · simp [CustomerDeleteView.respond, CustomerDeleteView.test_func, userPassesTest_forbidden_iff]
  · simp [CustomerDeleteView.respond, CustomerDeleteView.test_func, userPassesTest_success_iff]
  · cases hm : u.masterPk with
    | none =>
      simp [PriceListUpdateView.respond, PriceListUpdateView.test_func, hm, userPassesTest]
    | some v =>
      simp [PriceListUpdateView.respond, PriceListUpdateView.test_func, hm,
        userPassesTest_forbidden_iff]
      omega
  · cases hm : u.masterPk with
    | none =>
      simp [PriceListUpdateView.respond, PriceListUpdateView.test_func, hm, userPassesTest]
    | some v =>
      simp [PriceListUpdateView.respond, PriceListUpdateView.test_func, hm,
        userPassesTest_success_iff]
      omega
  · cases hm : u.masterPk with
    | none =>
      simp [PriceListDeleteView.respond, PriceListDeleteView.test_func, hm, userPassesTest]
    | some v =>
      simp [PriceListDeleteView.respond, PriceListDeleteView.test_func, hm,
        userPassesTest_forbidden_iff]
      omega
  · cases hm : u.masterPk with
    | none =>
      simp [PriceListDeleteView.respond, PriceListDeleteView.test_func, hm, userPassesTest]
    | some v =>
      simp [PriceListDeleteView.respond, PriceListDeleteView.test_func, hm,
        userPassesTest_success_iff]
      omega

/-- Claim C8: only the event update and remove handlers check that the
requesting master owns the target event — a request by a master whose
master differs from the event's master leaves the events table entirely
unchanged (and the event undeleted) — while `add_event` performs no
ownership validation and always creates an event owned by the requester. -/
theorem C8_event_ownership (eventDb : List EventRow) (u : ReqUser) (i freshId : Nat)
    (s e : DateTime) (t : Str) (ev : EventRow) (m : Nat)
    (hfind : eventDb.find? (fun x => decide (x.id = i)) = some ev)
    (hrole : u.role = Role.MASTER)
    (hm : u.masterPk = some m)
    (hne : m ≠ ev.master) :
    (update eventDb u i s e t).1 = eventDb ∧
      (remove eventDb u i).1 = eventDb ∧
      add_event eventDb u freshId t s e = (eventDb ++ [⟨freshId, t, s, e, m⟩], Response.jsonOk) := by
  refine ⟨?_, ?_, ?_⟩
  · simp [update, hrole, hfind, hm, hne]
  · simp [remove, hrole, hfind, hm, hne]
  · simp [add_event, hrole, hm]

/-- Witness for C8: master 1 touching an event owned by master 2. -/
theorem C8_event_ownership_witness :
    (update [evOther] masterUser1 1 dt0 dt0 []).1 = [evOther] ∧
      (remove [evOther] masterUser1 1).1 = [evOther] ∧
      add_event [evOther] masterUser1 5 [] dt0 dt0 =
        ([evOther] ++ [⟨5, [], dt0, dt0, 1⟩], Response.jsonOk) :=
  C8_event_ownership [evOther] masterUser1 1 5 dt0 dt0 [] evOther 1
    (by decide) rfl rfl (by decide)

/-- Substring search always succeeds with an empty needle. -/
theorem isSubstrB_nil (hay : Str) : isSubstrB [] hay = true := by
  induction hay with
  | nil => rfl
  | cons c rest ih => simp [isSubstrB, isPrefixB]

/-- The empty query is contained in every username. -/
theorem icontains_nil (hay : Str) : icontains hay [] = true := by
  simp [icontains, strToLower, isSubstrB_nil]

/-- `createPriceRows` with every selected price present appends exactly
one row per selected service and reports no failure. -/
theorem createPriceRows_ok (m : Nat) (cd : CleanedData) (svs : List Nat) (p : Nat → Int) :
    ∀ acc : List PriceListRow, (∀ s ∈ svs, cd.price s = some (p s)) →
      createPriceRows m cd svs acc = (acc ++ svs.map (fun s => ⟨m, s, p s⟩), none) := by
  induction svs with
  | nil =>
    intro acc _
    simp [createPriceRows]
  | cons s rest ih =>
    intro acc hp
    have hs : cd.price s = some (p s) := hp s (by simp)
    simp only [createPriceRows, hs]
    rw [ih _ (fun x hx => hp x (by simp [hx]))]
    simp

/-- Rows of other masters pass unchanged through the creation loop. -/
theorem createPriceRows_frame (m m2 : Nat) (cd : CleanedData) (svs : List Nat) (h : m2 ≠ m) :
    ∀ acc : List PriceListRow,
      (createPriceRows m cd svs acc).1.filter (fun r => decide (r.master = m2)) =
        acc.filter (fun r => decide (r.master = m2)) := by
  induction svs with
  | nil =>
    intro acc
    rfl
  | cons s rest ih =>
    intro acc
    cases hps : cd.price s with
    | none => simp [createPriceRows, hps]
    | some v =>
      simp only [createPriceRows, hps]
      rw [ih _]
      have h2 : m ≠ m2 := fun hh => h hh.symm
      simp [List.filter_append, List.filter_cons, h2]

/-- A missing price among the selected services aborts the creation
loop with a database integrity error. -/
theorem createPriceRows_missing (m : Nat) (cd : CleanedData) (svs : List Nat) :
    ∀ acc : List PriceListRow, (∃ s ∈ svs, cd.price s = none) →
      (createPriceRows m cd svs acc).2 = some FailureKind.dbIntegrityError := by
  induction svs with
  | nil =>
    intro acc h
    simp at h
  | cons s rest ih =>
    intro acc h
    cases hps : cd.price s with
    | none => simp [createPriceRows, hps]
    | some v =>
      simp only [createPriceRows, hps]
      apply ih
      rcases h with ⟨x, hx, hpx⟩
      rcases List.mem_cons.mp hx with rfl | hx2
      · rw [hps] at hpx
        cases hpx
      · exact ⟨x, hx2, hpx⟩

/-- After deleting a master's rows, filtering by that master yields
nothing. -/
theorem deleteForMaster_filter_self (table : List PriceListRow) (m : Nat) :
    (PriceList.deleteForMaster table m).filter (fun r => decide (r.master = m)) = [] := by
  unfold PriceList.deleteForMaster
  rw [List.filter_filter]
  apply List.filter_eq_nil_iff.mpr
  intro r _
  by_cases hr : r.master = m <;> simp [hr]

/-- Deleting one master's rows leaves any other master's rows intact. -/
theorem deleteForMaster_filter_other (table : List PriceListRow) (m m2 : Nat) (h : m2 ≠ m) :
    (PriceList.deleteForMaster table m).filter (fun r => decide (r.master = m2)) =
      table.filter (fun r => decide (r.master = m2)) := by
  unfold PriceList.deleteForMaster
  rw [List.filter_filter]
  apply List.filter_congr
  intro r _
  by_cases hr : r.master = m2
  · subst hr
    simp [h]
  · simp [hr]

/-- Every row created for master `m` survives the filter by `m`. -/
theorem created_filter_self (m : Nat) (svs : List Nat) (p : Nat → Int) :
    (svs.map (fun s => (⟨m, s, p s⟩ : PriceListRow))).filter
      (fun r => decide (r.master = m)) = svs.map (fun s => ⟨m, s, p s⟩) := by
  apply List.filter_eq_self.mpr
  intro a ha
  rcases List.mem_map.mp ha with ⟨s, _, rfl⟩
  simp

/-- Claim C1: after `MasterUpdateView.form_valid` completes on a valid
submission, the price-list rows of the updated master are exactly one
row per selected service, carrying the submitted per-service price, and
every previously existing row of that master is gone. -/
theorem C1_price_list_replace (m : Nat) (cd : CleanedData) (table : List PriceListRow)
    (svs : List Nat) (p : Nat → Int)
    (hs : cd.services.getD [] = svs)
    (hnd : svs.Nodup)
    (hp : ∀ s ∈ svs, cd.price s = some (p s)) :
    (MasterUpdateView.form_valid m cd table).2 = none ∧
      (MasterUpdateView.form_valid m cd table).1.filter (fun r => decide (r.master = m)) =
        svs.map (fun s => ⟨m, s, p s⟩) := by
  unfold MasterUpdateView.form_valid
  rw [hs, createPriceRows_ok m cd svs p (PriceList.deleteForMaster table m) hp]
  refine ⟨rfl, ?_⟩
  rw [List.filter_append, deleteForMaster_filter_self, created_filter_self]
  simp

/-- Witness for C1: master 1 selects services 2 and 3 with prices; the
old row is replaced by exactly the two submitted rows. -/
theorem C1_price_list_replace_witness :
    (MasterUpdateView.form_valid 1 cdTwo [rowOld]).2 = none ∧
      (MasterUpdateView.form_valid 1 cdTwo [rowOld]).1.filter (fun r => decide (r.master = 1)) =
        [2, 3].map (fun s => ⟨1, s, Int.ofNat (10 * s)⟩) :=
  C1_price_list_replace 1 cdTwo [rowOld] [2, 3] (fun s => Int.ofNat (10 * s))
    rfl (by decide) (by decide)

/-- Claim C10: the price-list replace is scoped to the updated master;
every other master's rows are unchanged by the update. -/
theorem C10_update_scoped_to_master (m m2 : Nat) (cd : CleanedData)
    (table : List PriceListRow) (h : m2 ≠ m) :
    (MasterUpdateView.form_valid m cd table).1.filter (fun r => decide (r.master = m2)) =
      table.filter (fun r => decide (r.master = m2)) := by
  unfold MasterUpdateView.form_valid
  rw [createPriceRows_frame m m2 cd (cd.services.getD []) h (PriceList.deleteForMaster table m),
    deleteForMaster_filter_other table m m2 h]

/-- Witness for C10: updating master 1 leaves master 2's row unchanged. -/
theorem C10_update_scoped_to_master_witness :
    (MasterUpdateView.form_valid 1 cdTwo [rowOther]).1.filter (fun r => decide (r.master = 2)) =
      [rowOther].filter (fun r => decide (r.master = 2)) :=
  C10_update_scoped_to_master 1 2 cdTwo [rowOther] (by decide)

/-- Counterexample to claim C6 as stated: a submission selecting service
1 with no corresponding price key fails with a database integrity error
from the row creation, not with a missing-value error from the form
layer (the form-layer lookup silently yields `None`). -/
theorem C6_counterexample :
    (MasterUpdateView.form_valid 5 cdMissing []).2 = some FailureKind.dbIntegrityError ∧
      (MasterUpdateView.form_valid 5 cdMissing []).2 ≠ some FailureKind.formMissingValue := by
  constructor
  · rfl
  · decide

/-- Claim C6 (amended): when some selected service's per-service price
key is absent from the cleaned data, the form layer silently yields
`None` and the observed failure is the database not-null integrity
error raised while creating the `PriceList` row — not a form-layer
missing-value error. -/
theorem C6_missing_price_db_error (m : Nat) (cd : CleanedData) (table : List PriceListRow)
    (svs : List Nat) (hs : cd.services.getD [] = svs)
    (h : ∃ s ∈ svs, cd.price s = none) :
    (MasterUpdateView.form_valid m cd table).2 = some FailureKind.dbIntegrityError ∧
      (MasterUpdateView.form_valid m cd table).2 ≠ some FailureKind.formMissingValue := by
  have h1 : (MasterUpdateView.form_valid m cd table).2 = some FailureKind.dbIntegrityError := by
    unfold MasterUpdateView.form_valid
    rw [hs]
    exact createPriceRows_missing m cd svs (PriceList.deleteForMaster table m) h
  refine ⟨h1, ?_⟩
  rw [h1]
  simp

/-- Witness for C6 (amended) at a concrete missing-price submission. -/
theorem C6_missing_price_db_error_witness :
    (MasterUpdateView.form_valid 7 cdMissing [rowOld]).2 = some FailureKind.dbIntegrityError ∧
      (MasterUpdateView.form_valid 7 cdMissing [rowOld]).2 ≠ some FailureKind.formMissingValue :=
  C6_missing_price_db_error 7 cdMissing [rowOld] [1] rfl (by decide)

/-- A valid master search: composition of the role filter and the
`icontains` filter. -/
theorem get_queryset_valid_master (db : List UserRow) (q : Str)
    (hv : searchFormIsValid q = true) :
    MasterListView.get_queryset db q =
      db.filter (fun u => decide (u.role = Role.MASTER) && icontains u.username q) := by
  simp only [MasterListView.get_queryset, hv, if_true, List.filter_filter]
  apply List.filter_congr
  intro u _
  rw [Bool.and_comm]

/-- A valid customer search: composition of the role filter and the
`icontains` filter. -/
theorem get_queryset_valid_customer (db : List UserRow) (q : Str)
    (hv : searchFormIsValid q = true) :
    CustomerListView.get_queryset db q =
      db.filter (fun u => decide (u.role = Role.CUSTOMER) && icontains u.username q) := by
  simp only [CustomerListView.get_queryset, hv, if_true, List.filter_filter]
  apply List.filter_congr
  intro u _
  rw [Bool.and_comm]

/-- An invalid master search returns every row of the role. -/
theorem get_queryset_invalid_master (db : List UserRow) (q : Str)
    (hv : searchFormIsValid q = false) :
    MasterListView.get_queryset db q = db.filter (fun u => decide (u.role = Role.MASTER)) := by
  simp only [MasterListView.get_queryset, hv, if_false, Bool.false_eq_true]

/-- An invalid customer search returns every row of the role. -/
theorem get_queryset_invalid_customer (db : List UserRow) (q : Str)
    (hv : searchFormIsValid q = false) :
    CustomerListView.get_queryset db q = db.filter (fun u => decide (u.role = Role.CUSTOMER)) := by
  simp only [CustomerListView.get_queryset, hv, if_false, Bool.false_eq_true]

set_option maxRecDepth 8000 in
/-- Counterexample to claim C3 as stated: with a single master `bob` and
a 256-character query, the view returns `bob` although no username
contains the query — the over-long query makes the search form invalid
and the view falls back to all rows of the role. -/
theorem C3_counterexample :
    MasterListView.get_queryset [bobRow] longQ ≠
      [bobRow].filter (fun u => decide (u.role = Role.MASTER) && icontains u.username longQ) := by
  decide

/-- Claim C3 (amended): for every query of length at most 255 the
master-list and customer-list views return exactly the rows of the
corresponding role whose username contains the query case-insensitively
(all rows of the role when the query is empty); a query longer than the
form's 255-character max length leaves the form invalid and both views
return all rows of the role. -/
theorem C3_search_exact (masterDb customerDb : List UserRow) (q q2 : Str)
    (hq : q.length ≤ 255) (hq2 : 255 < q2.length) :
    (MasterListView.get_queryset masterDb q =
      masterDb.filter (fun u => decide (u.role = Role.MASTER) && icontains u.username q)) ∧
      (CustomerListView.get_queryset customerDb q =
        customerDb.filter (fun u => decide (u.role = Role.CUSTOMER) && icontains u.username q)) ∧
      (MasterListView.get_queryset masterDb [] =
        masterDb.filter (fun u => decide (u.role = Role.MASTER))) ∧
      (CustomerListView.get_queryset customerDb [] =
        customerDb.filter (fun u => decide (u.role = Role.CUSTOMER))) ∧
      (MasterListView.get_queryset masterDb q2 =
        masterDb.filter (fun u => decide (u.role = Role.MASTER))) ∧
      (CustomerListView.get_queryset customerDb q2 =
        customerDb.filter (fun u => decide (u.role = Role.CUSTOMER))) := by
  have hv : searchFormIsValid q = true := by
    simp [searchFormIsValid, hq]
  have hv0 : searchFormIsValid ([] : Str) = true := by
    simp [searchFormIsValid]
  have hv2 : searchFormIsValid q2 = false := by
    simp only [searchFormIsValid, decide_eq_false_iff_not, not_le]
    exact hq2
  refine ⟨get_queryset_valid_master masterDb q hv,
    get_queryset_valid_customer customerDb q hv, ?_, ?_,
    get_queryset_invalid_master masterDb q2 hv2,
    get_queryset_invalid_customer customerDb q2 hv2⟩
  · rw [get_queryset_valid_master masterDb [] hv0]
    apply List.filter_congr
    intro u _
    rw [icontains_nil, Bool.and_true]
  · rw [get_queryset_valid_customer customerDb [] hv0]
    apply List.filter_congr
    intro u _
    rw [icontains_nil, Bool.and_true]

/-- Witness for C3 (amended) on a one-row database, the query `o` and an
over-long query. -/
theorem C3_search_exact_witness :
    (MasterListView.get_queryset [bobRow] ['o'] =
      [bobRow].filter (fun u => decide (u.role = Role.MASTER) && icontains u.username ['o'])) ∧
      (CustomerListView.get_queryset [bobRow] ['o'] =
        [bobRow].filter (fun u => decide (u.role = Role.CUSTOMER) && icontains u.username ['o'])) ∧
      (MasterListView.get_queryset [bobRow] [] =
        [bobRow].filter (fun u => decide (u.role = Role.MASTER))) ∧
      (CustomerListView.get_queryset [bobRow] [] =
        [bobRow].filter (fun u => decide (u.role = Role.CUSTOMER))) ∧
      (MasterListView.get_queryset [bobRow] longQ =
        [bobRow].filter (fun u => decide (u.role = Role.MASTER))) ∧
      (CustomerListView.get_queryset [bobRow] longQ =
        [bobRow].filter (fun u => decide (u.role = Role.CUSTOMER))) :=
  C3_search_exact [bobRow] [bobRow] ['o'] longQ (by decide)
    (by rw [longQ, List.length_replicate]; omega)

/-- Digits below ten render as digit characters. -/
theorem digitChar_lt_ten_isDigit (k : Nat) (h : k < 10) :
    (Nat.digitChar k).isDigit = true := by
  interval_cases k <;> decide

/-- The last decimal digit of any number renders as a digit character. -/
theorem digitChar_mod_isDigit (n : Nat) : (Nat.digitChar (n % 10)).isDigit = true :=
  digitChar_lt_ten_isDigit (n % 10) (Nat.mod_lt n (by decide))

/-- `strftime("%Y-%m-%d %H:%M:%S")` always produces the
`YYYY-MM-DD HH:MM:SS` shape. -/
theorem strftime_shape (d : DateTime) : ymdHmsShape (strftimeYmdHms d) = true := by
  simp only [strftimeYmdHms, pad4, pad2, List.cons_append, List.nil_append, ymdHmsShape]
  simp [digitChar_mod_isDigit]

/-- Claim C9: `GET /all_events/` over a database of events returns a
JSON array with one object per row, each of shape
`{title, id, start, end}` with `start` and `end` formatted as
`YYYY-MM-DD HH:MM:SS`. -/
theorem C9_all_events_shape (eventDb : List EventRow)
    (h : ∀ ev ∈ eventDb, validDT ev.start_date ∧ validDT ev.end_date) :
    all_events eventDb = Json.jarr (eventDb.map eventJson) ∧
      (eventDb.map eventJson).length = eventDb.length ∧
      (eventDb.map eventJson).all eventJsonShape = true := by
  refine ⟨rfl, by simp, ?_⟩
  rw [List.all_eq_true]
  intro j hj
  rcases List.mem_map.mp hj with ⟨ev, _, rfl⟩
  simp [eventJson, eventJsonShape, strftime_shape]

/-- Witness for C9 on a two-row events table. -/
theorem C9_all_events_shape_witness :
    all_events [ev1, ev2] = Json.jarr ([ev1, ev2].map eventJson) ∧
      ([ev1, ev2].map eventJson).length = [ev1, ev2].length ∧
      ([ev1, ev2].map eventJson).all eventJsonShape = true :=
  C9_all_events_shape [ev1, ev2] (by decide)

end NailService
